import Mathlib

/-!
Shallow embedding of the yaml-language-server sources under verification:
schema-URI resolution (`src/languageservice/utils/schemaUrls.ts`), the
watched-files / document-symbol / completion handlers
(`src/languageserver/handlers/languageHandlers.ts`) and the schema
modification request dispatcher
(`src/languageserver/handlers/requestHandlers.ts`).

JavaScript strings are embedded as `List Char`; the JS built-ins used by the
code (`trim`, `toLowerCase`) are modelled char-wise over the ASCII range the
claims exercise.
-/

namespace YamlLS

/-- Whitespace for the JS `String.prototype.trim` model: space, tab, LF, CR,
vertical tab, form feed, NBSP and the BOM, identified by code point. -/
def isJsWsp (c : Char) : Bool :=
  c.toNat == 32 || c.toNat == 9 || c.toNat == 10 || c.toNat == 13 ||
  c.toNat == 11 || c.toNat == 12 || c.toNat == 160 || c.toNat == 65279

/-- Char-wise model of JS `toLowerCase` on the ASCII letters: shifts A-Z
(code points 65-90) down by 32, leaves every other char unchanged. -/
def jsToLowerChar (c : Char) : Char :=
  if 65 ≤ c.toNat ∧ c.toNat ≤ 90 then Char.ofNat (c.toNat + 32) else c

/-- JS `String.prototype.toLowerCase` (ASCII fragment). -/
def jsToLowerCase (s : List Char) : List Char :=
  s.map jsToLowerChar

/-- JS `String.prototype.trim`: drop whitespace from both ends. -/
def jsTrim (s : List Char) : List Char :=
  (((s.dropWhile isJsWsp).reverse.dropWhile isJsWsp).reverse)

/-! ## `src/languageservice/utils/schemaUrls.ts` -/

def KUBERNETES_SCHEMA_URL : List Char :=
  ("https://raw.githubusercontent.com/yannh/kubernetes-json-schema/master/v1.20.5-standalone-strict/all.json").data

def JSON_SCHEMASTORE_URL : List Char :=
  ("https://www.schemastore.org/api/json/catalog.json").data

/-- The alias token compared against in `checkSchemaURI`. -/
def kubernetesToken : List Char := ("kubernetes").data

/-- A `WorkspaceFolder` as used by `checkSchemaURI`: a name and a URI. -/
structure WorkspaceFolder where
  name : List Char
  uri : List Char

/-- Modelled from the spec: `isRelativePath` lives in
`src/languageservice/utils/paths.ts`, which is not among the given sources.
The spec calls a schema identifier relative when it is "syntactically
relative (no scheme, not absolute-path)".  A scheme is a `:` occurring
before the first `/`. -/
def hasScheme (uri : List Char) : Bool :=
  (uri.takeWhile (fun c => !(c == '/'))).contains ':'

/-- An absolute path starts with `/`. -/
def isAbsolutePath (uri : List Char) : Bool :=
  match uri with
  | [] => false
  | c :: _ => c == '/'

/-- Modelled from the spec: syntactically relative means no scheme and not an
absolute path. -/
def isRelativePath (uri : List Char) : Bool :=
  !hasScheme uri && !isAbsolutePath uri

/-- Joining a base URI and a relative identifier with a `/` separator. -/
def joinPath (base rel : List Char) : List Char :=
  base ++ '/' :: rel

/-- Modelled from the spec: `relativeToAbsolutePath` lives in
`src/languageservice/utils/paths.ts`, which is not among the given sources.
The spec: "resolves it against each workspace folder in order, falling back
to `workspaceRoot`, producing an absolute URI; if no workspace folder is
configured, resolution against the root must still succeed (root acts as the
base)".  A folder applies when the identifier begins with the folder's
name; the first applicable folder in order wins, the root is the fallback
base. -/
def relativeToAbsolutePath (workspaceFolders : List WorkspaceFolder)
    (workspaceRoot : List Char) (uri : List Char) : List Char :=
  match workspaceFolders.find? (fun f => f.name.isPrefixOf uri) with
  | some f => joinPath f.uri uri
  | none => joinPath workspaceRoot uri

/-- `checkSchemaURI` from `src/languageservice/utils/schemaUrls.ts`:
the alias check `uri.trim().toLowerCase() === 'kubernetes'`, then the
relative-path branch, then pass-through. -/
def checkSchemaURI (workspaceFolders : List WorkspaceFolder)
    (workspaceRoot : List Char) (uri : List Char) : List Char :=
  if jsToLowerCase (jsTrim uri) = kubernetesToken then
    KUBERNETES_SCHEMA_URL
  else if isRelativePath uri then
    relativeToAbsolutePath workspaceFolders workspaceRoot uri
  else
    uri

/-! ## `watchedFilesHandler` from `src/languageserver/handlers/languageHandlers.ts`

The language service behind `resetSchema` is not among the given sources, so
it is threaded through as an abstract state `σ` with a state-passing
`resetSchema : σ → uri → σ × Bool`, exactly the surface the handler uses. -/

/-- The `change.changes.forEach` loop: calls `resetSchema` on every changed
URI in order, setting `hasChanges` to `true` whenever a call returns `true`. -/
def processChanges {σ : Type} (resetSchema : σ → List Char → σ × Bool) :
    σ → Bool → List (List Char) → σ × Bool
  | s, hasChanges, [] => (s, hasChanges)
  | s, hasChanges, c :: cs =>
    let r := resetSchema s c
    processChanges resetSchema r.1 (if r.2 then true else hasChanges) cs

/-- The booleans returned by the successive `resetSchema` calls of the loop. -/
def resetResults {σ : Type} (resetSchema : σ → List Char → σ × Bool) :
    σ → List (List Char) → List Bool
  | _, [] => []
  | s, c :: cs =>
    let r := resetSchema s c
    r.2 :: resetResults resetSchema r.1 cs

/-- `watchedFilesHandler`: runs `resetSchema` over every changed URI, then, if
any call returned `true`, validates every currently open document.  Returns
the final language-service state and the list of documents passed to
`validate`, in order. -/
def watchedFilesHandler {σ δ : Type} (resetSchema : σ → List Char → σ × Bool)
    (s : σ) (openDocuments : List δ) (changes : List (List Char)) : σ × List δ :=
  let r := processChanges resetSchema s false changes
  (r.1, if r.2 then openDocuments else [])

/-! ## Schema modification dispatch from
`src/languageserver/handlers/requestHandlers.ts` -/

namespace MODIFICATION_ACTIONS

/-- Modelled from the spec: the `MODIFICATION_ACTIONS` enum lives in
`src/languageservice/services/yamlSchemaService.ts`, which is not among the
given sources; the spec describes "a tagged request carrying one of
`{add, delete, deleteAll}`".  The tags are modelled as runtime strings. -/
def add : List Char := ("add").data

def delete : List Char := ("delete").data

def deleteAll : List Char := ("deleteAll").data

end MODIFICATION_ACTIONS

/-- Modelled from the spec: the request payload
(`SchemaAdditions | SchemaDeletions | SchemaDeletionsAll`) carries an action
tag, a target schema URI and, for add/delete, a JSON-pointer-like path and
value/key.  At the JS runtime boundary the action tag is an arbitrary
string. -/
structure SchemaModification where
  action : List Char
  schemaUri : List Char
  path : List Char
  key : List Char
  content : List Char

/-- The three core operations the dispatcher can invoke, each carrying the
request payload it was handed. -/
inductive CoreCall where
  | modifySchemaContent : SchemaModification → CoreCall
  | deleteSchemaContent : SchemaModification → CoreCall
  | deleteSchemasWhole : SchemaModification → CoreCall

/-- `registerSchemaModificationNotificationHandler`: the `if`/`else if` chain
on `modifications.action`; an unrecognized tag falls through every branch and
performs no language-service call (`none`). -/
def registerSchemaModificationNotificationHandler (modifications : SchemaModification) :
    Option CoreCall :=
  if modifications.action = MODIFICATION_ACTIONS.add then
    some (CoreCall.modifySchemaContent modifications)
  else if modifications.action = MODIFICATION_ACTIONS.delete then
    some (CoreCall.deleteSchemaContent modifications)
  else if modifications.action = MODIFICATION_ACTIONS.deleteAll then
    some (CoreCall.deleteSchemasWhole modifications)
  else
    none

/-! ## Schema store with runtime-mutation overlay

Modelled from the spec: the store behind `modifySchemaContent` /
`deleteSchemaContent` / `deleteSchemasWhole` lives in
`src/languageservice/services/yamlSchemaService.ts`, which is not among the
given sources.  The spec: mutations are "a persistent small overlay structure
layered on top of the fetched base schema rather than mutating the fetched
document in place; `deleteAll` simply clears the overlay"; `addition` merges
a fragment into the properties, `deletion` removes a named path,
`deletionAll` reverts to the last fetched state. -/

/-- A minimal JSON-schema value: a scalar or an object with named properties. -/
inductive JSchema where
  | scalar : List Char → JSchema
  | obj : List (List Char × JSchema) → JSchema

/-- Store state: fetched base schemas keyed by URI, and the per-URI overlay of
runtime-added fragments (path ↦ fragment), kept separate from the base. -/
structure SchemaStoreState where
  base : List (List Char × JSchema)
  overlay : List (List Char × List (List Char × JSchema))

/-- The overlay fragments currently recorded for a URI. -/
def overlayFor (st : SchemaStoreState) (uri : List Char) : List (List Char × JSchema) :=
  (st.overlay.lookup uri).getD []

/-- Replace the overlay entry for a URI. -/
def setOverlay (st : SchemaStoreState) (uri : List Char)
    (frags : List (List Char × JSchema)) : SchemaStoreState :=
  { st with overlay := (uri, frags) :: st.overlay.filter (fun e => !(e.1 == uri)) }

/-- `modifySchemaContent` (add): records one more (path, fragment) pair in the
overlay for the URI; the fetched base is untouched. -/
def modifySchemaContent (st : SchemaStoreState) (uri path : List Char)
    (content : JSchema) : SchemaStoreState :=
  setOverlay st uri (overlayFor st uri ++ [(path, content)])

/-- `deleteSchemaContent` (delete): removes the named path from the overlay
for the URI; the fetched base is untouched. -/
def deleteSchemaContent (st : SchemaStoreState) (uri path : List Char) :
    SchemaStoreState :=
  setOverlay st uri ((overlayFor st uri).filter (fun e => !(e.1 == path)))

/-- `deleteSchemasWhole` (deleteAll): drops the whole overlay entry for the
URI, reverting the URI to its last fetched state. -/
def deleteSchemasWhole (st : SchemaStoreState) (uri : List Char) : SchemaStoreState :=
  { st with overlay := st.overlay.filter (fun e => !(e.1 == uri)) }

/-- The last fetched (base) schema for a URI. -/
def fetchedSchema (st : SchemaStoreState) (uri : List Char) : Option JSchema :=
  st.base.lookup uri

/-- The properties of an optional schema, empty when it is absent or scalar. -/
def propsOf : Option JSchema → List (List Char × JSchema)
  | some (JSchema.obj props) => props
  | _ => []

/-- The schema observed by subsequent matches: the fetched base with the
overlay fragments merged into its properties; exactly the base when the
overlay is empty. -/
def effectiveSchema (st : SchemaStoreState) (uri : List Char) : Option JSchema :=
  match overlayFor st uri with
  | [] => fetchedSchema st uri
  | frags => some (JSchema.obj (propsOf (fetchedSchema st uri) ++ frags))

/-! ## `documentSymbolHandler` from
`src/languageserver/handlers/languageHandlers.ts`

The core symbol computations (`findDocumentSymbols2` / `findDocumentSymbols`)
are not among the given sources and are taken as abstract functions of the
document text; `previousCall` is the handler's time-windowed cache. -/

/-- The handler's `previousCall` cache: URI, timestamp and result of the last
computed request, each possibly still unset. -/
structure PreviousCall (α : Type) where
  uri : Option (List Char)
  time : Option Int
  request : Option (List α)

/-- The initial `previousCall = {}`. -/
def PreviousCall.empty {α : Type} : PreviousCall α :=
  { uri := none, time := none, request := none }

/-- `documentSymbolHandler`: returns `none` when the document is not open;
otherwise, outside tests, if the cache holds a result for the same URI
computed less than 100 ms ago it is returned unchanged, else the result is
recomputed from the document's current text (hierarchical or flat core call
per the capability flag) and cached.  Returns the response and the updated
cache.  The JS guards are truthiness checks: `this.previousCall.request` is
an array, truthy exactly when present (an empty array is truthy), modelled
as `isSome`; `this.previousCall.time` is a number, falsy both when absent
and when `0`, modelled as `previousCall.time.getD 0 ≠ 0`. -/
def documentSymbolHandler {α : Type} (isTest hierarchicalDocumentSymbolSupport : Bool)
    (findDocumentSymbols2 findDocumentSymbols : List Char → List α)
    (documents : List Char → Option (List Char))
    (previousCall : PreviousCall α) (uri : List Char) (now : Int) :
    Option (List α) × PreviousCall α :=
  match documents uri with
  | none => (none, previousCall)
  | some text =>
    if isTest = false ∧ previousCall.request.isSome = true ∧
        previousCall.time.getD 0 ≠ 0 ∧ previousCall.uri = some uri ∧
        now - previousCall.time.getD 0 < 100 then
      (some (previousCall.request.getD []), previousCall)
    else
      let res := if hierarchicalDocumentSymbolSupport then findDocumentSymbols2 text
        else findDocumentSymbols text
      (some res, { uri := some uri, time := some now, request := some res })

/-! ## `completionHandler` from
`src/languageserver/handlers/languageHandlers.ts`

The core `doComplete` and `isKubernetesAssociatedDocument` are not among the
given sources and are abstract; the handler's observable effect is the
completion list it resolves to and whether the core was invoked. -/

/-- A completion list as built by the handler: items plus `isIncomplete`. -/
structure CompletionList (α : Type) where
  items : List α
  isIncomplete : Bool

/-- `completionHandler`: builds the empty `{items: [], isIncomplete: false}`
result, returns it without touching the core when the document is not open,
and otherwise delegates to `doComplete`.  The second component records
whether `doComplete` was invoked. -/
def completionHandler {α δ : Type} (documents : List Char → Option δ)
    (doComplete : δ → Int × Int → Bool → CompletionList α)
    (isKubernetesAssociatedDocument : δ → Bool)
    (uri : List Char) (position : Int × Int) : CompletionList α × Bool :=
  match documents uri with
  | none => ({ items := [], isIncomplete := false }, false)
  | some textDocument =>
    (doComplete textDocument position (isKubernetesAssociatedDocument textDocument), true)

/-! ## Helper lemmas -/

/-- Lowercasing never moves a char into or out of the whitespace class. -/
theorem isJsWsp_jsToLowerChar (c : Char) : isJsWsp (jsToLowerChar c) = isJsWsp c := by
  unfold jsToLowerChar
  by_cases h : 65 ≤ c.toNat ∧ c.toNat ≤ 90
  · rw [if_pos h]
    obtain ⟨h1, h2⟩ := h
    have hr : isJsWsp c = false := by
      simp only [isJsWsp, Bool.or_eq_false_iff, beq_eq_false_iff_ne, ne_eq]
      omega
    rw [hr]
    generalize c.toNat = n at h1 h2 ⊢
    interval_cases n <;> decide
  · rw [if_neg h]

/-- `dropWhile` commutes with `map` when the predicate is invariant under the
mapped function. -/
theorem dropWhile_map_inv (f : Char → Char) (p : Char → Bool)
    (hp : ∀ c, p (f c) = p c) (l : List Char) :
    (l.map f).dropWhile p = (l.dropWhile p).map f := by
  induction l with
  | nil => rfl
  | cons a l ih =>
    rw [List.map_cons, List.dropWhile_cons, List.dropWhile_cons, hp a]
    cases hpa : p a
    · simp
    · simpa using ih

/-- JS `trim` commutes with JS `toLowerCase`. -/
theorem jsTrim_jsToLowerCase (l : List Char) :
    jsTrim (jsToLowerCase l) = jsToLowerCase (jsTrim l) := by
  unfold jsTrim jsToLowerCase
  rw [dropWhile_map_inv _ _ isJsWsp_jsToLowerChar, ← List.map_reverse,
    dropWhile_map_inv _ _ isJsWsp_jsToLowerChar, ← List.map_reverse]

/-- A URI with a scheme keeps its scheme under appending. -/
theorem hasScheme_append (r l : List Char) (h : hasScheme r = true) :
    hasScheme (r ++ l) = true := by
  induction r with
  | nil => simp [hasScheme] at h
  | cons c r ih =>
    unfold hasScheme at h ⊢
    rw [List.cons_append]
    rw [List.takeWhile_cons] at h ⊢
    cases hc : (c == '/')
    · have hcond : ((!(c == '/')) = true) := by simp [hc]
      rw [if_pos hcond] at h
      rw [Bool.not_false, if_pos rfl]
      rw [List.contains_cons] at h ⊢
      cases hcc : (':' == c)
      · rw [hcc, Bool.false_or] at h
        rw [Bool.false_or]
        exact ih h
      · rw [Bool.true_or]
    · have hcond : ¬((!(c == '/')) = true) := by simp [hc]
      rw [if_neg hcond] at h
      simp at h

/-- An absolute path stays absolute under appending. -/
theorem isAbsolutePath_append (r l : List Char) (h : isAbsolutePath r = true) :
    isAbsolutePath (r ++ l) = true := by
  cases r with
  | nil => simp [isAbsolutePath] at h
  | cons c r => simpa [isAbsolutePath] using h

/-- Joining a relative identifier onto a non-relative base yields a
non-relative (absolute) URI. -/
theorem isRelativePath_joinPath (base rel : List Char)
    (h : isRelativePath base = false) :
    isRelativePath (joinPath base rel) = false := by
  unfold isRelativePath at h ⊢
  rw [Bool.and_eq_false_iff] at h ⊢
  rcases h with h | h
  · left
    have hb : hasScheme base = true := by
      cases hv : hasScheme base
      · rw [hv] at h
        simp at h
      · rfl
    simp [joinPath, hasScheme_append _ _ hb]
  · right
    have hb : isAbsolutePath base = true := by
      cases hv : isAbsolutePath base
      · rw [hv] at h
        simp at h
      · rfl
    simp [joinPath, isAbsolutePath_append _ _ hb]

/-! ## Claim theorems: schema URI resolution -/

/-- C1: for every raw schema identifier string case-insensitively equal to the
alias token "kubernetes", `checkSchemaURI` returns exactly the fixed
Kubernetes schema URL, for every value of the workspace folders and the
workspace root. -/
theorem checkSchemaURI_kubernetes_alias (workspaceFolders : List WorkspaceFolder)
    (workspaceRoot : List Char) (uri : List Char)
    (h : jsToLowerCase uri = kubernetesToken) :
    checkSchemaURI workspaceFolders workspaceRoot uri = KUBERNETES_SCHEMA_URL := by
  have htrim : jsToLowerCase (jsTrim uri) = kubernetesToken := by
    rw [← jsTrim_jsToLowerCase, h]
    decide
  simp [checkSchemaURI, htrim]

/-- Witness for C1 at the concrete identifier "KuberNetes". -/
theorem checkSchemaURI_kubernetes_alias_witness :
    jsToLowerCase ("KuberNetes").data = kubernetesToken ∧
    checkSchemaURI [] ("file:///root").data ("KuberNetes").data = KUBERNETES_SCHEMA_URL :=
  ⟨by decide, checkSchemaURI_kubernetes_alias [] (("file:///root").data) (("KuberNetes").data) (by decide)⟩

/-- C10: alias recognition is whitespace-insensitive as well as
case-insensitive: every identifier equal to "kubernetes" after trimming and
lowercasing resolves to the fixed Kubernetes schema URL, and the concrete
identifier "  Kubernetes  " is accepted although it is not case-insensitively
equal to the alias token, so the accepted set is strictly larger. -/
theorem checkSchemaURI_alias_trim_insensitive :
    (∀ (workspaceFolders : List WorkspaceFolder) (workspaceRoot uri : List Char),
      jsToLowerCase (jsTrim uri) = kubernetesToken →
      checkSchemaURI workspaceFolders workspaceRoot uri = KUBERNETES_SCHEMA_URL) ∧
    (jsToLowerCase ("  Kubernetes  ").data ≠ kubernetesToken ∧
      ∀ (workspaceFolders : List WorkspaceFolder) (workspaceRoot : List Char),
        checkSchemaURI workspaceFolders workspaceRoot ("  Kubernetes  ").data =
          KUBERNETES_SCHEMA_URL) := by
  refine ⟨fun workspaceFolders workspaceRoot uri h => by simp [checkSchemaURI, h], by decide, ?_⟩
  intro workspaceFolders workspaceRoot
  have h : jsToLowerCase (jsTrim ("  Kubernetes  ").data) = kubernetesToken := by decide
  simp [checkSchemaURI, h]

/-- Witness for C10 at the concrete identifier " kubernetes". -/
theorem checkSchemaURI_alias_trim_insensitive_witness :
    jsToLowerCase (jsTrim (" kubernetes").data) = kubernetesToken ∧
    checkSchemaURI [] [] (" kubernetes").data = KUBERNETES_SCHEMA_URL :=
  ⟨by decide, checkSchemaURI_alias_trim_insensitive.1 [] [] ((" kubernetes").data) (by decide)⟩

/-- C6: for every raw schema identifier that is neither (after trimming and
lowercasing) the alias token nor a relative path, `checkSchemaURI` returns
its input unchanged, regardless of workspace folders and workspace root. -/
theorem checkSchemaURI_passthrough (workspaceFolders : List WorkspaceFolder)
    (workspaceRoot : List Char) (uri : List Char)
    (halias : jsToLowerCase (jsTrim uri) ≠ kubernetesToken)
    (hrel : isRelativePath uri = false) :
    checkSchemaURI workspaceFolders workspaceRoot uri = uri := by
  simp [checkSchemaURI, halias, hrel]

/-- Witness for C6 at the concrete absolute URI "https://example.com/s.json". -/
theorem checkSchemaURI_passthrough_witness :
    jsToLowerCase (jsTrim ("https://example.com/s.json").data) ≠ kubernetesToken ∧
    isRelativePath ("https://example.com/s.json").data = false ∧
    checkSchemaURI [] ("file:///ws").data ("https://example.com/s.json").data =
      ("https://example.com/s.json").data :=
  ⟨by decide, by decide,
    checkSchemaURI_passthrough [] (("file:///ws").data) (("https://example.com/s.json").data)
      (by decide) (by decide)⟩

/-- C5: for every raw schema identifier that is syntactically relative and not
the alias, `checkSchemaURI` resolves it against the workspace folders in
order with the workspace root as fallback; in particular, with no workspace
folders it is anchored at the root and, the root being absolute, the result
is absolute. -/
theorem checkSchemaURI_relative (workspaceFolders : List WorkspaceFolder)
    (workspaceRoot uri : List Char)
    (halias : jsToLowerCase (jsTrim uri) ≠ kubernetesToken)
    (hrel : isRelativePath uri = true) :
    checkSchemaURI workspaceFolders workspaceRoot uri =
      relativeToAbsolutePath workspaceFolders workspaceRoot uri ∧
    (workspaceFolders = [] →
      checkSchemaURI workspaceFolders workspaceRoot uri = joinPath workspaceRoot uri ∧
      (∃ rest, checkSchemaURI workspaceFolders workspaceRoot uri = workspaceRoot ++ rest) ∧
      (isRelativePath workspaceRoot = false →
        isRelativePath (checkSchemaURI workspaceFolders workspaceRoot uri) = false)) := by
  have hmain : checkSchemaURI workspaceFolders workspaceRoot uri =
      relativeToAbsolutePath workspaceFolders workspaceRoot uri := by
    simp [checkSchemaURI, halias, hrel]
  refine ⟨hmain, fun hempty => ?_⟩
  subst hempty
  have hroot : relativeToAbsolutePath [] workspaceRoot uri = joinPath workspaceRoot uri := by
    simp [relativeToAbsolutePath, List.find?]
  rw [hmain, hroot]
  refine ⟨rfl, ⟨'/' :: uri, rfl⟩, fun habs => isRelativePath_joinPath _ _ habs⟩

/-- Witness for C5 at the relative identifier "schemas/a.json" with root
"file:///ws" and no workspace folders. -/
theorem checkSchemaURI_relative_witness :
    isRelativePath ("schemas/a.json").data = true ∧
    checkSchemaURI [] ("file:///ws").data ("schemas/a.json").data =
      joinPath ("file:///ws").data ("schemas/a.json").data :=
  ⟨by decide,
    ((checkSchemaURI_relative [] (("file:///ws").data) (("schemas/a.json").data)
      (by decide) (by decide)).2 rfl).1⟩

/-! ## Claim theorems: watched-files handler -/

/-- The accumulated `hasChanges` flag of the forEach loop is the disjunction
of the booleans the `resetSchema` calls returned. -/
theorem processChanges_snd {σ : Type} (resetSchema : σ → List Char → σ × Bool)
    (changes : List (List Char)) :
    ∀ (s : σ) (hasChanges : Bool),
    (processChanges resetSchema s hasChanges changes).2 =
      (hasChanges || (resetResults resetSchema s changes).any id) := by
  induction changes with
  | nil =>
    intro s hasChanges
    simp [processChanges, resetResults]
  | cons c cs ih =>
    intro s hasChanges
    simp only [processChanges, resetResults, List.any_cons]
    rw [ih]
    cases h2 : (resetSchema s c).2 <;> cases hasChanges <;> simp [id]

/-- C2: `watchedFilesHandler` re-validates every currently open document if
and only if at least one `resetSchema` call on a changed URI returned `true`;
when every call returned `false`, no document is re-validated. -/
theorem watchedFilesHandler_revalidation {σ δ : Type}
    (resetSchema : σ → List Char → σ × Bool) (s : σ)
    (openDocuments : List δ) (changes : List (List Char)) :
    (watchedFilesHandler resetSchema s openDocuments changes).2 =
      (if (resetResults resetSchema s changes).any id = true then openDocuments else []) ∧
    (∀ d : δ, d ∈ (watchedFilesHandler resetSchema s openDocuments changes).2 ↔
      (d ∈ openDocuments ∧ (resetResults resetSchema s changes).any id = true)) := by
  have hmain : (watchedFilesHandler resetSchema s openDocuments changes).2 =
      (if (resetResults resetSchema s changes).any id = true then openDocuments else []) := by
    have hm2 : (watchedFilesHandler resetSchema s openDocuments changes).2 =
        (if (processChanges resetSchema s false changes).2 = true then openDocuments
          else []) := rfl
    rw [hm2, processChanges_snd resetSchema changes s false]
    simp
  refine ⟨hmain, fun d => ?_⟩
  rw [hmain]
  cases hany : (resetResults resetSchema s changes).any id <;> simp [hany]

/-! ## Claim theorems: schema modification dispatch -/

/-- C3: the handler dispatches by action tag to exactly one core operation:
`add` invokes `modifySchemaContent`, `delete` invokes `deleteSchemaContent`,
`deleteAll` invokes `deleteSchemasWhole`, each passing the request payload
through unchanged. -/
theorem schemaModification_dispatch (m : SchemaModification) :
    (m.action = MODIFICATION_ACTIONS.add →
      registerSchemaModificationNotificationHandler m =
        some (CoreCall.modifySchemaContent m)) ∧
    (m.action = MODIFICATION_ACTIONS.delete →
      registerSchemaModificationNotificationHandler m =
        some (CoreCall.deleteSchemaContent m)) ∧
    (m.action = MODIFICATION_ACTIONS.deleteAll →
      registerSchemaModificationNotificationHandler m =
        some (CoreCall.deleteSchemasWhole m)) := by
  refine ⟨fun h => ?_, fun h => ?_, fun h => ?_⟩
  · unfold registerSchemaModificationNotificationHandler
    rw [h, if_pos rfl]
  · unfold registerSchemaModificationNotificationHandler
    rw [h, if_neg (by decide), if_pos rfl]
  · unfold registerSchemaModificationNotificationHandler
    rw [h, if_neg (by decide), if_neg (by decide), if_pos rfl]

/-- Witness for C3 at three concrete requests, one per action tag. -/
theorem schemaModification_dispatch_witness :
    registerSchemaModificationNotificationHandler
        { action := MODIFICATION_ACTIONS.add, schemaUri := ("file:///s.json").data,
          path := ("properties").data, key := ("kind").data, content := ("v").data } =
      some (CoreCall.modifySchemaContent
        { action := MODIFICATION_ACTIONS.add, schemaUri := ("file:///s.json").data,
          path := ("properties").data, key := ("kind").data, content := ("v").data }) ∧
    registerSchemaModificationNotificationHandler
        { action := MODIFICATION_ACTIONS.delete, schemaUri := ("file:///s.json").data,
          path := ("properties").data, key := ("kind").data, content := [] } =
      some (CoreCall.deleteSchemaContent
        { action := MODIFICATION_ACTIONS.delete, schemaUri := ("file:///s.json").data,
          path := ("properties").data, key := ("kind").data, content := [] }) ∧
    registerSchemaModificationNotificationHandler
        { action := MODIFICATION_ACTIONS.deleteAll, schemaUri := ("file:///s.json").data,
          path := [], key := [], content := [] } =
      some (CoreCall.deleteSchemasWhole
        { action := MODIFICATION_ACTIONS.deleteAll, schemaUri := ("file:///s.json").data,
          path := [], key := [], content := [] }) :=
  ⟨(schemaModification_dispatch _).1 rfl,
    (schemaModification_dispatch _).2.1 rfl,
    (schemaModification_dispatch _).2.2 rfl⟩

/-- C8: a request whose action tag is none of add/delete/deleteAll falls
through every branch: no core operation is invoked, no error is raised, and
the schema state is untouched (`none` — the handler performs no call). -/
theorem schemaModification_unknown_ignored (m : SchemaModification)
    (h1 : m.action ≠ MODIFICATION_ACTIONS.add)
    (h2 : m.action ≠ MODIFICATION_ACTIONS.delete)
    (h3 : m.action ≠ MODIFICATION_ACTIONS.deleteAll) :
    registerSchemaModificationNotificationHandler m = none := by
  unfold registerSchemaModificationNotificationHandler
  rw [if_neg h1, if_neg h2, if_neg h3]

/-- Witness for C8 at the concrete unknown action tag "rename". -/
theorem schemaModification_unknown_ignored_witness :
    ("rename").data ≠ MODIFICATION_ACTIONS.add ∧
    registerSchemaModificationNotificationHandler
        { action := ("rename").data, schemaUri := ("file:///s.json").data,
          path := [], key := [], content := [] } = none :=
  ⟨by decide,
    schemaModification_unknown_ignored
      { action := ("rename").data, schemaUri := ("file:///s.json").data,
        path := [], key := [], content := [] }
      (by decide) (by decide) (by decide)⟩

/-! ## Claim theorems: schema store overlay -/

/-- Looking up a key in a list from which every entry with that key was
filtered out finds nothing. -/
theorem lookup_filter_ne {β : Type} (uri : List Char) (l : List (List Char × β)) :
    (l.filter (fun e => !(e.1 == uri))).lookup uri = none := by
  induction l with
  | nil => rfl
  | cons e l ih =>
    by_cases he : e.1 = uri
    · have hb : (e.1 == uri) = true := by simp [he]
      simp [List.filter_cons, hb, ih]
    · have hb : (e.1 == uri) = false := beq_eq_false_iff_ne.mpr he
      have hb2 : (uri == e.1) = false := beq_eq_false_iff_ne.mpr fun hh => he hh.symm
      simp [List.filter_cons, hb, List.lookup, hb2, ih]

/-- C7: an `add` mutation followed by a `deleteAll` for the same URI leaves
the stored schema exactly equal to its pre-mutation fetched state — the
overlay is cleared, and neither mutation touches the fetched base. -/
theorem modify_then_deleteAll_restores (st : SchemaStoreState)
    (uri path : List Char) (content : JSchema) :
    effectiveSchema (deleteSchemasWhole (modifySchemaContent st uri path content) uri) uri =
      fetchedSchema st uri ∧
    (modifySchemaContent st uri path content).base = st.base ∧
    (deleteSchemasWhole (modifySchemaContent st uri path content) uri).base = st.base := by
  have hov : overlayFor (deleteSchemasWhole (modifySchemaContent st uri path content) uri)
      uri = [] := by
    unfold overlayFor deleteSchemasWhole
    rw [lookup_filter_ne]
    rfl
  refine ⟨?_, rfl, rfl⟩
  unfold effectiveSchema
  rw [hov]
  rfl

/-! ## Claim theorems: completion handler -/

/-- C9: a completion request for a URI that is not among the open documents
resolves to a list with empty items and `isIncomplete = false`, and the core
`doComplete` is never invoked. -/
theorem completionHandler_unopened {α δ : Type} (documents : List Char → Option δ)
    (doComplete : δ → Int × Int → Bool → CompletionList α)
    (isKubernetesAssociatedDocument : δ → Bool) (uri : List Char) (position : Int × Int)
    (h : documents uri = none) :
    completionHandler documents doComplete isKubernetesAssociatedDocument uri position =
      ({ items := [], isIncomplete := false }, false) := by
  unfold completionHandler
  rw [h]

/-- Witness for C9 with no document open at the requested URI. -/
theorem completionHandler_unopened_witness :
    (fun _ : List Char => (none : Option Nat)) (("file:///a.yaml").data) = none ∧
    completionHandler (fun _ : List Char => (none : Option Nat))
        (fun _ _ _ => ({ items := [0], isIncomplete := true } : CompletionList Nat))
        (fun _ => true) (("file:///a.yaml").data) (0, 0) =
      ({ items := [], isIncomplete := false }, false) :=
  ⟨rfl,
    completionHandler_unopened (fun _ => (none : Option Nat))
      (fun _ _ _ => { items := [0], isIncomplete := true })
      (fun _ => true) (("file:///a.yaml").data) (0, 0) rfl⟩

/-! ## Claim theorems: document-symbol handler -/

/-- C4 counterexample: a first request at timestamp 1 ms (a truthy, nonzero
time, so the cache is armed) and a second request for the same URI at 50 ms
with the document text changed in between ("a" to "ab"); the second response
is the cached `some [1]`, while the core computation on the current revision
gives `[2]` — the handler-layer cache does change the observable result. -/
theorem documentSymbolHandler_cache_stale :
    ((documentSymbolHandler false true (fun t => [t.length]) (fun t => [t.length])
        (fun _ => some (("ab").data))
        ((documentSymbolHandler false true (fun t => [t.length]) (fun t => [t.length])
          (fun _ => some (("a").data)) PreviousCall.empty (("d.yaml").data) 1).2)
        (("d.yaml").data) 50).1 = some [1]) ∧
    (fun t : List Char => [t.length]) (("ab").data) = [2] ∧
    ((documentSymbolHandler false true (fun t => [t.length]) (fun t => [t.length])
        (fun _ => some (("ab").data))
        ((documentSymbolHandler false true (fun t => [t.length]) (fun t => [t.length])
          (fun _ => some (("a").data)) PreviousCall.empty (("d.yaml").data) 1).2)
        (("d.yaml").data) 50).1 ≠
      some ((fun t : List Char => [t.length]) (("ab").data))) := by
  decide

/-- C4 amended: the handler returns exactly the core's symbol list for the
document's current text whenever any cached result for the requested URI
already equals that core result — in particular whenever the text did not
change between two requests for the same URI; only a text change inside the
100 ms window can make the response differ from the core. -/
theorem documentSymbolHandler_core_agreement {α : Type}
    (isTest hierarchicalDocumentSymbolSupport : Bool)
    (findDocumentSymbols2 findDocumentSymbols : List Char → List α)
    (documents : List Char → Option (List Char)) (previousCall : PreviousCall α)
    (uri : List Char) (now : Int) (text : List Char)
    (hdoc : documents uri = some text)
    (hcache : ∀ r, previousCall.uri = some uri → previousCall.request = some r →
      r = (if hierarchicalDocumentSymbolSupport then findDocumentSymbols2 text
        else findDocumentSymbols text)) :
    (documentSymbolHandler isTest hierarchicalDocumentSymbolSupport findDocumentSymbols2
        findDocumentSymbols documents previousCall uri now).1 =
      some (if hierarchicalDocumentSymbolSupport then findDocumentSymbols2 text
        else findDocumentSymbols text) := by
  unfold documentSymbolHandler
  simp only [hdoc]
  by_cases hcond : (isTest = false ∧ previousCall.request.isSome = true ∧
      previousCall.time.getD 0 ≠ 0 ∧ previousCall.uri = some uri ∧
      now - previousCall.time.getD 0 < 100)
  · rw [if_pos hcond]
    obtain ⟨-, hreq, -, huri, -⟩ := hcond
    obtain ⟨r, hr⟩ := Option.isSome_iff_exists.mp hreq
    simp only [hr, Option.getD_some]
    rw [hcache r huri hr]
  · rw [if_neg hcond]

/-- Witness for C4's amended theorem: a first request with an empty cache
returns the core result for the current text. -/
theorem documentSymbolHandler_core_agreement_witness :
    (fun _ : List Char => some (("k: v").data)) (("d.yaml").data) = some (("k: v").data) ∧
    (documentSymbolHandler false true (fun t => [t.length]) (fun t => [t.length])
        (fun _ => some (("k: v").data)) PreviousCall.empty (("d.yaml").data) 0).1 =
      some (if true then (fun t : List Char => [t.length]) (("k: v").data)
        else (fun t : List Char => [t.length]) (("k: v").data)) :=
  ⟨rfl,
    documentSymbolHandler_core_agreement false true
      (fun t => [t.length]) (fun t => [t.length])
      (fun _ => some (("k: v").data)) PreviousCall.empty (("d.yaml").data) 0
      (("k: v").data) rfl
      (fun r _ hr => by simp [PreviousCall.empty] at hr)⟩

end YamlLS
